import Mathlib

/-!
Shallow embedding of `fortigate_ipsecvpn_tunnel.py` (Checkmk agent-based
plugin for Fortigate IPsec VPN phase-2 tunnels).

Numeric model: Python byte counters are `Int` (Python `int` is unbounded);
the float arithmetic inside `human_readable_bytes` (division by `1024.0`)
is modelled over `ℚ`.  Division of a binary float by 1024 is exact, so for
counters below 2^53 the rational model agrees with the float code exactly;
`%.2f` formatting is modelled as round-half-even at two decimals, which is
what Python performs on the (here exact) binary value.

Fallible Python operations (`int(...)` raising `ValueError`, `dict[...]`
raising `KeyError`) are modelled with `Option`: `none` is the raised
exception.  In `check_fortigate_vpn_tunnel` the `KeyError` from the status
map is raised before the first `yield` of the generator, so a failing
evaluation produces no output items at all; this is why the check function
is modelled as returning `Option (List CheckItem)`.
-/

/-- Round-half-even of a rational to an integer (the rounding `%.2f`
formatting applies, after scaling by 100). -/
def roundHalfEven (q : ℚ) : Int :=
  let f : Int := ⌊q⌋
  let r : ℚ := q - f
  if r < 1/2 then f
  else if 1/2 < r then f + 1
  else if f % 2 = 0 then f else f + 1

/-- Render a natural number of hundredths as a fixed two-decimal string,
e.g. `150 ↦ "1.50"`, `102300 ↦ "1023.00"`. -/
def twoDecimalsOfNat (m : Nat) : String :=
  toString (m / 100) ++ "." ++ (if m % 100 < 10 then "0" else "") ++ toString (m % 100)

/-- Model of the Python format spec `:.2f` applied to an exact rational. -/
def formatTwoDecimals (q : ℚ) : String :=
  let n : Int := roundHalfEven (q * 100)
  if n < 0 then "-" ++ twoDecimalsOfNat n.natAbs else twoDecimalsOfNat n.toNat

/-- Loop body of `human_readable_bytes`: step through the remaining unit
labels, dividing by 1024 until the value drops below 1024; `none` when the
unit list is exhausted (the Python `for` loop falls through and the
function returns `None`). -/
def hrbGo : List String → ℚ → Option String
  | [], _ => none
  | u :: us, q => if q < 1024 then some (formatTwoDecimals q ++ " " ++ u) else hrbGo us (q / 1024)

/-- Embedding of `human_readable_bytes` from the source: iterate over the
unit table `["bytes", "KB", "MB", "GB", "TB"]`, returning the formatted
string at the first unit where the value is below 1024, and `None`
(modelled `none`) when the loop exhausts the table. -/
def human_readable_bytes (num_bytes : ℚ) : Option String :=
  hrbGo ["bytes", "KB", "MB", "GB", "TB"] num_bytes

/-- Python renders an f-string interpolation of a possibly-`None` string:
`None` prints as "None". -/
def pyShowOptStr : Option String → String
  | some s => s
  | none => "None"

/-- Model of Python `int(s)` on base-10 text: optional surrounding
whitespace, optional single sign, then a nonempty run of decimal digits
(`ValueError`, i.e. `none`, otherwise). -/
def pyInt (s : String) : Option Int :=
  let cs := ((s.data.dropWhile Char.isWhitespace).reverse.dropWhile Char.isWhitespace).reverse
  let signed : Int × List Char :=
    match cs with
    | '-' :: rest => (-1, rest)
    | '+' :: rest => (1, rest)
    | _ => (1, cs)
  if signed.2 ≠ [] ∧ signed.2.all Char.isDigit then
    some (signed.1 * (signed.2.foldl (fun a c => a * 10 + (c.toNat - 48)) (0 : Nat) : Nat))
  else none

/-- One parsed tunnel record: the Python dict
`{"in": int, "out": int, "state": str}` built by the parse function. -/
structure TunnelRecord where
  in_bytes : Int
  out_bytes : Int
  state : String
deriving DecidableEq, Repr

/-- A raw SNMP row: `(ph2_name, ph2_in, ph2_out, ph2_state)`. -/
abbrev RawRow := String × String × String × String

/-- The parsed section: a Python dict keyed by tunnel name, modelled as an
insertion-ordered association list with unique keys. -/
abbrev Snapshot := List (String × TunnelRecord)

/-- Python dict assignment `d[k] = v`: replace the value at an existing
key in place, else append the new binding. -/
def dictInsert {β : Type} (k : String) (v : β) : List (String × β) → List (String × β)
  | [] => [(k, v)]
  | (k₁, v₁) :: rest => if k₁ = k then (k, v) :: rest else (k₁, v₁) :: dictInsert k v rest

/-- Python dict lookup `d.get(k)` / `d[k]` on the association list. -/
def alookup {β : Type} (k : String) : List (String × β) → Option β
  | [] => none
  | (k₁, v₁) :: rest => if k₁ = k then some v₁ else alookup k rest

/-- Tail of the parse loop of `parse_fortigate_vpn_tunnel`, threading the
accumulated dict; `none` models the `ValueError` that `int(...)` raises on
a malformed byte field, which aborts the whole parse. -/
def parseGo (acc : Snapshot) : List RawRow → Option Snapshot
  | [] => some acc
  | (ph2_name, ph2_in, ph2_out, ph2_state) :: rest =>
    match pyInt ph2_in, pyInt ph2_out with
    | some iv, some ov => parseGo (dictInsert ph2_name ⟨iv, ov, ph2_state⟩ acc) rest
    | _, _ => none

/-- Embedding of `parse_fortigate_vpn_tunnel`: build the dict row by row;
`int()` failure on a byte field is fatal for the whole parse (no partial
snapshot escapes the function). The state field is stored verbatim. -/
def parse_fortigate_vpn_tunnel (string_table : List RawRow) : Option Snapshot :=
  parseGo [] string_table

/-- Embedding of `discover_fortigate_vpn_tunnel`: yield one `Service` per
key of the section dict, modelled as the list of keys in insertion
order. -/
def discover_fortigate_vpn_tunnel (sect : Snapshot) : List String :=
  sect.map Prod.fst

/-- Checkmk `State` values. -/
inductive CmkState
  | ok
  | warn
  | crit
  | unknown
deriving DecidableEq, Repr

/-- One item yielded by the check function: a `Result` or a `Metric`. -/
inductive CheckItem
  | result (st : CmkState) (summary : String)
  | metric (name : String) (value : Int)
deriving DecidableEq, Repr

/-- The module-level constant `fortigate_ipsecvpn_tunnel_ent_status_map`. -/
def fortigate_ipsecvpn_tunnel_ent_status_map : List (String × String) :=
  [("1", "down"), ("2", "up")]

/-- Embedding of `check_fortigate_vpn_tunnel`.  `none` models the
`KeyError` raised by the subscript
`fortigate_ipsecvpn_tunnel_ent_status_map[data["state"]]` when the raw
status code is unrecognized; that exception fires before the generator
yields anything, so a failing evaluation emits no items at all. -/
def check_fortigate_vpn_tunnel (item : String) (sect : Snapshot) : Option (List CheckItem) :=
  match alookup item sect with
  | none => some [.result .crit ("Tunnel '" ++ item ++ "' is missing")]
  | some data =>
    match alookup data.state fortigate_ipsecvpn_tunnel_ent_status_map with
    | none => none
    | some label =>
      let state_map : List (String × CmkState) := [("up", .ok), ("down", .crit)]
      let st := (alookup label state_map).getD .unknown
      some
        [ .result st
            ("Status: " ++ label ++ ", In: "
              ++ pyShowOptStr (human_readable_bytes (data.in_bytes : ℚ)) ++ ", Out: "
              ++ pyShowOptStr (human_readable_bytes (data.out_bytes : ℚ))),
          .metric "in_octets" data.in_bytes,
          .metric "out_octets" data.out_bytes ]

/-- The named metrics among the yielded items, in order. -/
def metricsOf (out : List CheckItem) : List (String × Int) :=
  out.filterMap fun it =>
    match it with
    | .metric n v => some (n, v)
    | _ => none

/-- Last raw row carrying a given tunnel name, if any (the row whose
values survive the dict-overwrite in the parse loop). -/
def lastEntry (k : String) : List RawRow → Option RawRow
  | [] => none
  | r :: rest =>
    match lastEntry k rest with
    | some r₁ => some r₁
    | none => if r.1 = k then some r else none

lemma hrbGo_cons (u : String) (us : List String) (q : ℚ) :
    hrbGo (u :: us) q =
      if q < 1024 then some (formatTwoDecimals q ++ " " ++ u) else hrbGo us (q / 1024) := rfl

lemma div1024_lt {q b : ℚ} (h : q < b * 1024) : q / 1024 < b :=
  (div_lt_iff₀ (by norm_num)).2 h

lemma le_div1024 {q b : ℚ} (h : b * 1024 ≤ q) : b ≤ q / 1024 :=
  (le_div_iff₀ (by norm_num)).2 h

/-- C9: humanBytes is exact at the 1024 boundaries and at zero:
`humanBytes(1048576) = "1.00 MB"`, `humanBytes(1023) = "1023.00 bytes"`,
`humanBytes(1024) = "1.00 KB"`, and `humanBytes(0) = "0.00 bytes"`. -/
theorem human_readable_bytes_boundary_values :
    human_readable_bytes 1048576 = some "1.00 MB" ∧
    human_readable_bytes 1023 = some "1023.00 bytes" ∧
    human_readable_bytes 1024 = some "1.00 KB" ∧
    human_readable_bytes 0 = some "0.00 bytes" := by
  refine ⟨?_, ?_, ?_, ?_⟩ <;>
  · norm_num [human_readable_bytes, hrbGo, formatTwoDecimals, roundHalfEven]
    decide

/-- C1 counterexample: at the concrete input `1024 ^ 5` (1024 TB of
bytes), `human_readable_bytes` produces no rendered string at all (the
Python loop divides at the TB step too, falls off the unit table and the
function returns `None`), contradicting the claim that every input
≥ 1024 TB still renders as a number labeled TB. -/
theorem human_readable_bytes_peta_renders_nothing :
    human_readable_bytes ((1024 : ℚ) ^ 5) = none := by
  norm_num [human_readable_bytes, hrbGo]

/-- C1 (amended): for every non-negative input below `1024 ^ 5` the
function renders the value at two decimal places with the unit obtained
by stepping through {bytes, KB, MB, GB, TB}, dividing by 1024 at each
step; but the loop does divide at the TB step as well, so every input
≥ `1024 ^ 5` exhausts the unit table and produces no result (`None`)
instead of a TB-labeled number. -/
theorem human_readable_bytes_unit_ranges :
    (∀ q : ℚ, 0 ≤ q → q < 1024 →
      human_readable_bytes q = some (formatTwoDecimals q ++ " " ++ "bytes")) ∧
    (∀ q : ℚ, 1024 ≤ q → q < 1024 ^ 2 →
      human_readable_bytes q = some (formatTwoDecimals (q / 1024) ++ " " ++ "KB")) ∧
    (∀ q : ℚ, 1024 ^ 2 ≤ q → q < 1024 ^ 3 →
      human_readable_bytes q = some (formatTwoDecimals (q / 1024 / 1024) ++ " " ++ "MB")) ∧
    (∀ q : ℚ, 1024 ^ 3 ≤ q → q < 1024 ^ 4 →
      human_readable_bytes q = some (formatTwoDecimals (q / 1024 / 1024 / 1024) ++ " " ++ "GB")) ∧
    (∀ q : ℚ, 1024 ^ 4 ≤ q → q < 1024 ^ 5 →
      human_readable_bytes q =
        some (formatTwoDecimals (q / 1024 / 1024 / 1024 / 1024) ++ " " ++ "TB")) ∧
    (∀ q : ℚ, 1024 ^ 5 ≤ q → human_readable_bytes q = none) := by
  refine ⟨?_, ?_, ?_, ?_, ?_, ?_⟩
  · intro q _ h2
    rw [human_readable_bytes, hrbGo_cons, if_pos h2]
  · intro q h1 h2
    rw [human_readable_bytes, hrbGo_cons, if_neg (not_lt.2 h1), hrbGo_cons,
      if_pos (div1024_lt (by nlinarith))]
  · intro q h1 h2
    rw [human_readable_bytes, hrbGo_cons, if_neg (not_lt.2 (by nlinarith)), hrbGo_cons,
      if_neg (not_lt.2 (le_div1024 (by nlinarith))), hrbGo_cons,
      if_pos (div1024_lt (div1024_lt (by nlinarith)))]
  · intro q h1 h2
    rw [human_readable_bytes, hrbGo_cons, if_neg (not_lt.2 (by nlinarith)), hrbGo_cons,
      if_neg (not_lt.2 (le_div1024 (by nlinarith))), hrbGo_cons,
      if_neg (not_lt.2 (le_div1024 (le_div1024 (by nlinarith)))), hrbGo_cons,
      if_pos (div1024_lt (div1024_lt (div1024_lt (by nlinarith))))]
  · intro q h1 h2
    rw [human_readable_bytes, hrbGo_cons, if_neg (not_lt.2 (by nlinarith)), hrbGo_cons,
      if_neg (not_lt.2 (le_div1024 (by nlinarith))), hrbGo_cons,
      if_neg (not_lt.2 (le_div1024 (le_div1024 (by nlinarith)))), hrbGo_cons,
      if_neg (not_lt.2 (le_div1024 (le_div1024 (le_div1024 (by nlinarith))))), hrbGo_cons,
      if_pos (div1024_lt (div1024_lt (div1024_lt (div1024_lt (by nlinarith)))))]
  · intro q h1
    rw [human_readable_bytes, hrbGo_cons, if_neg (not_lt.2 (by nlinarith)), hrbGo_cons,
      if_neg (not_lt.2 (le_div1024 (by nlinarith))), hrbGo_cons,
      if_neg (not_lt.2 (le_div1024 (le_div1024 (by nlinarith)))), hrbGo_cons,
      if_neg (not_lt.2 (le_div1024 (le_div1024 (le_div1024 (by nlinarith))))), hrbGo_cons,
      if_neg (not_lt.2 (le_div1024 (le_div1024 (le_div1024 (le_div1024 (by nlinarith))))))]
    rfl

/-- Witness for the amended C1 theorem at concrete inputs: 512 bytes
renders in the bytes range, 2048 renders in the KB range, and
`1024 ^ 5 + 1` produces no result. -/
theorem human_readable_bytes_unit_ranges_witness :
    human_readable_bytes 512 = some (formatTwoDecimals 512 ++ " " ++ "bytes") ∧
    human_readable_bytes 2048 = some (formatTwoDecimals ((2048 : ℚ) / 1024) ++ " " ++ "KB") ∧
    human_readable_bytes ((1024 : ℚ) ^ 5 + 1) = none :=
  ⟨human_readable_bytes_unit_ranges.1 512 (by norm_num) (by norm_num),
   human_readable_bytes_unit_ranges.2.1 2048 (by norm_num) (by norm_num),
   human_readable_bytes_unit_ranges.2.2.2.2.2 ((1024 : ℚ) ^ 5 + 1) (by norm_num)⟩

lemma alookup_dictInsert_self {β : Type} (k : String) (v : β) (l : List (String × β)) :
    alookup k (dictInsert k v l) = some v := by
  induction l with
  | nil => simp [dictInsert, alookup]
  | cons hd tl ih =>
    obtain ⟨k₁, v₁⟩ := hd
    by_cases hk : k₁ = k
    · simp [dictInsert, hk, alookup]
    · simp [dictInsert, hk, alookup, ih]

lemma alookup_dictInsert_ne {β : Type} {k q : String} (h : q ≠ k) (v : β)
    (l : List (String × β)) : alookup q (dictInsert k v l) = alookup q l := by
  have hkq : k ≠ q := Ne.symm h
  induction l with
  | nil => simp [dictInsert, alookup, hkq]
  | cons hd tl ih =>
    obtain ⟨k₁, v₁⟩ := hd
    by_cases hk : k₁ = k
    · subst hk
      simp [dictInsert, alookup, hkq]
    · simp only [dictInsert, if_neg hk, alookup]
      by_cases hq : k₁ = q
      · simp [hq]
      · simp [hq, ih]

lemma dictInsert_cons_self {β : Type} (k : String) (v v₁ : β) (tl : List (String × β)) :
    dictInsert k v ((k, v₁) :: tl) = (k, v) :: tl := by
  simp [dictInsert]

lemma dictInsert_cons_ne {β : Type} {k k₁ : String} (hk : k₁ ≠ k) (v v₁ : β)
    (tl : List (String × β)) :
    dictInsert k v ((k₁, v₁) :: tl) = (k₁, v₁) :: dictInsert k v tl := by
  simp [dictInsert, hk]

lemma mem_keys_dictInsert {β : Type} (k q : String) (v : β) (l : List (String × β)) :
    q ∈ (dictInsert k v l).map Prod.fst ↔ q = k ∨ q ∈ l.map Prod.fst := by
  induction l with
  | nil => simp [dictInsert]
  | cons hd tl ih =>
    obtain ⟨k₁, v₁⟩ := hd
    by_cases hk : k₁ = k
    · subst hk
      rw [dictInsert_cons_self]
      simp only [List.map_cons, List.mem_cons]
      tauto
    · rw [dictInsert_cons_ne hk]
      simp only [List.map_cons, List.mem_cons, ih]
      tauto

lemma nodup_keys_dictInsert {β : Type} (k : String) (v : β) (l : List (String × β))
    (h : (l.map Prod.fst).Nodup) : ((dictInsert k v l).map Prod.fst).Nodup := by
  induction l with
  | nil => simp [dictInsert]
  | cons hd tl ih =>
    obtain ⟨k₁, v₁⟩ := hd
    simp only [List.map_cons, List.nodup_cons] at h
    by_cases hk : k₁ = k
    · subst hk
      rw [dictInsert_cons_self]
      simp only [List.map_cons, List.nodup_cons]
      exact h
    · rw [dictInsert_cons_ne hk]
      simp only [List.map_cons, List.nodup_cons]
      refine ⟨?_, ih h.2⟩
      rw [mem_keys_dictInsert]
      push_neg
      exact ⟨hk, h.1⟩

lemma mem_keys_iff_alookup {β : Type} (l : List (String × β)) (k : String) :
    k ∈ l.map Prod.fst ↔ ∃ v, alookup k l = some v := by
  induction l with
  | nil => simp [alookup]
  | cons hd tl ih =>
    obtain ⟨k₁, v₁⟩ := hd
    by_cases hk : k₁ = k
    · subst hk
      simp [alookup]
    · have hks : k ≠ k₁ := Ne.symm hk
      simp [alookup, hk, hks, ih]

lemma parseGo_fails_of_bad_row (rows : List RawRow) :
    ∀ acc n i o st, (n, i, o, st) ∈ rows → (pyInt i = none ∨ pyInt o = none) →
      parseGo acc rows = none := by
  induction rows with
  | nil => intro acc n i o st h; simp at h
  | cons hd tl ih =>
    intro acc n i o st hmem hbad
    obtain ⟨n₁, i₁, o₁, st₁⟩ := hd
    rcases List.mem_cons.1 hmem with hh | ht
    · simp only [Prod.mk.injEq] at hh
      obtain ⟨rfl, rfl, rfl, rfl⟩ := hh
      simp only [parseGo]
      rcases hbad with hb | hb
      · simp [hb]
      · cases h1 : pyInt i with
        | none => rfl
        | some iv => simp [h1, hb]
    · simp only [parseGo]
      cases h1 : pyInt i₁ with
      | none => rfl
      | some iv =>
        cases h2 : pyInt o₁ with
        | none => rfl
        | some ov => exact ih _ n i o st ht hbad

lemma parseGo_succeeds_of_all_good (rows : List RawRow) :
    ∀ acc, (∀ n i o st, (n, i, o, st) ∈ rows → (pyInt i).isSome ∧ (pyInt o).isSome) →
      ∃ s, parseGo acc rows = some s := by
  induction rows with
  | nil => intro acc _; exact ⟨acc, rfl⟩
  | cons hd tl ih =>
    intro acc hgood
    obtain ⟨n₁, i₁, o₁, st₁⟩ := hd
    have hhd := hgood n₁ i₁ o₁ st₁ (List.mem_cons_self ..)
    obtain ⟨iv, h1⟩ := Option.isSome_iff_exists.1 hhd.1
    obtain ⟨ov, h2⟩ := Option.isSome_iff_exists.1 hhd.2
    simp only [parseGo, h1, h2]
    exact ih _ fun n i o st hm => hgood n i o st (List.mem_cons_of_mem _ hm)

lemma parseGo_record_provenance (rows : List RawRow) :
    ∀ acc s, parseGo acc rows = some s → ∀ k r, alookup k s = some r →
      alookup k acc = some r ∨
        ∃ i o, (k, i, o, r.state) ∈ rows ∧
          pyInt i = some r.in_bytes ∧ pyInt o = some r.out_bytes := by
  induction rows with
  | nil =>
    intro acc s hp k r hl
    simp only [parseGo, Option.some.injEq] at hp
    subst hp
    exact Or.inl hl
  | cons hd tl ih =>
    intro acc s hp k r hl
    obtain ⟨n₁, i₁, o₁, st₁⟩ := hd
    simp only [parseGo] at hp
    cases h1 : pyInt i₁ with
    | none => rw [h1] at hp; exact absurd hp (by simp)
    | some iv =>
      cases h2 : pyInt o₁ with
      | none => rw [h1, h2] at hp; exact absurd hp (by simp)
      | some ov =>
        rw [h1, h2] at hp
        rcases ih _ _ hp k r hl with hacc | ⟨i, o, hm, hi, ho⟩
        · by_cases hk : n₁ = k
          · subst hk
            rw [alookup_dictInsert_self] at hacc
            obtain rfl := Option.some.injEq .. ▸ hacc
            refine Or.inr ⟨i₁, o₁, List.mem_cons_self .., h1, h2⟩
          · rw [alookup_dictInsert_ne (fun hh => hk hh.symm)] at hacc
            exact Or.inl hacc
        · exact Or.inr ⟨i, o, List.mem_cons_of_mem _ hm, hi, ho⟩

lemma lastEntry_none_no_key (k : String) (rows : List RawRow) :
    lastEntry k rows = none → ∀ r ∈ rows, r.1 ≠ k := by
  induction rows with
  | nil => intro _ r hr; simp at hr
  | cons hd tl ih =>
    intro h r hr
    simp only [lastEntry] at h
    cases hrest : lastEntry k tl with
    | some r₁ => rw [hrest] at h; exact absurd h (by simp)
    | none =>
      rw [hrest] at h
      by_cases hk : hd.1 = k
      · rw [if_pos hk] at h; exact absurd h (by simp)
      · rcases List.mem_cons.1 hr with rfl | hmem
        · exact hk
        · exact ih hrest r hmem

lemma parseGo_untouched_key (rows : List RawRow) :
    ∀ acc s k, parseGo acc rows = some s → (∀ r ∈ rows, r.1 ≠ k) →
      alookup k s = alookup k acc := by
  induction rows with
  | nil =>
    intro acc s k hp _
    simp only [parseGo, Option.some.injEq] at hp
    subst hp
    rfl
  | cons hd tl ih =>
    intro acc s k hp hnone
    obtain ⟨n₁, i₁, o₁, st₁⟩ := hd
    simp only [parseGo] at hp
    cases h1 : pyInt i₁ with
    | none => rw [h1] at hp; exact absurd hp (by simp)
    | some iv =>
      cases h2 : pyInt o₁ with
      | none => rw [h1, h2] at hp; exact absurd hp (by simp)
      | some ov =>
        rw [h1, h2] at hp
        have hne : k ≠ n₁ :=
          fun hh => (hnone (n₁, i₁, o₁, st₁) (List.mem_cons_self ..)) hh.symm
        rw [ih _ _ k hp fun r hr => hnone r (List.mem_cons_of_mem _ hr),
          alookup_dictInsert_ne hne]

lemma parseGo_lastEntry_wins (rows : List RawRow) :
    ∀ acc s k m i o st, parseGo acc rows = some s → lastEntry k rows = some (m, i, o, st) →
      ∃ iv ov, pyInt i = some iv ∧ pyInt o = some ov ∧
        alookup k s = some ⟨iv, ov, st⟩ := by
  induction rows with
  | nil => intro acc s k m i o st _ hl; exact absurd hl (by simp [lastEntry])
  | cons hd tl ih =>
    intro acc s k m i o st hp hl
    obtain ⟨n₁, i₁, o₁, st₁⟩ := hd
    simp only [parseGo] at hp
    cases h1 : pyInt i₁ with
    | none => rw [h1] at hp; exact absurd hp (by simp)
    | some iv₁ =>
      cases h2 : pyInt o₁ with
      | none => rw [h1, h2] at hp; exact absurd hp (by simp)
      | some ov₁ =>
        rw [h1, h2] at hp
        simp only [lastEntry] at hl
        cases hrest : lastEntry k tl with
        | some r₁ =>
          rw [hrest] at hl
          obtain rfl := Option.some.injEq .. ▸ hl
          exact ih _ _ k m i o st hp hrest
        | none =>
          rw [hrest] at hl
          by_cases hk : n₁ = k
          · rw [if_pos hk] at hl
            simp only [Option.some.injEq, Prod.mk.injEq] at hl
            obtain ⟨rfl, rfl, rfl, rfl⟩ := hl
            subst hk
            refine ⟨iv₁, ov₁, h1, h2, ?_⟩
            rw [parseGo_untouched_key tl _ _ _ hp (lastEntry_none_no_key _ _ hrest),
              alookup_dictInsert_self]
          · rw [if_neg hk] at hl
            exact absurd hl (by simp)

/-- C6: a row whose inbound or outbound byte field is not parseable as an
integer makes the whole parse fail (no partial snapshot is returned);
when every row is well-formed the parse succeeds; and the record found in
a successful snapshot carries the status text of some raw row verbatim
(no validation of the status field at parse time). -/
theorem parse_malformed_fatal_wellformed_verbatim :
    (∀ (rows : List RawRow) (n i o st : String), (n, i, o, st) ∈ rows →
      pyInt i = none ∨ pyInt o = none → parse_fortigate_vpn_tunnel rows = none) ∧
    (∀ rows : List RawRow,
      (∀ n i o st, (n, i, o, st) ∈ rows → (pyInt i).isSome ∧ (pyInt o).isSome) →
      ∃ s, parse_fortigate_vpn_tunnel rows = some s) ∧
    (∀ (rows : List RawRow) (s : Snapshot) (k : String) (r : TunnelRecord),
      parse_fortigate_vpn_tunnel rows = some s → alookup k s = some r →
      ∃ i o, (k, i, o, r.state) ∈ rows ∧
        pyInt i = some r.in_bytes ∧ pyInt o = some r.out_bytes) := by
  refine ⟨?_, ?_, ?_⟩
  · intro rows n i o st hmem hbad
    exact parseGo_fails_of_bad_row rows [] n i o st hmem hbad
  · intro rows hgood
    exact parseGo_succeeds_of_all_good rows [] hgood
  · intro rows s k r hp hl
    rcases parseGo_record_provenance rows [] s hp k r hl with hacc | hsrc
    · exact absurd hacc (by simp [alookup])
    · exact hsrc

/-- Witness for C6 at concrete rows: a row with a non-numeric inbound
field aborts the parse; a well-formed row set parses, and its snapshot
stores even an unrecognized status code verbatim. -/
theorem parse_malformed_fatal_wellformed_verbatim_witness :
    parse_fortigate_vpn_tunnel [("a", "10", "20", "2"), ("b", "x9", "0", "1")] = none ∧
    (∃ s, parse_fortigate_vpn_tunnel [("a", "10", "20", "9")] = some s) ∧
    (∃ i o, (("a" : String), i, o, ("9" : String)) ∈
        [(("a" : String), ("10" : String), ("20" : String), ("9" : String))] ∧
      pyInt i = some 10 ∧ pyInt o = some 20) := by
  refine ⟨?_, ?_, ?_⟩
  · exact parse_malformed_fatal_wellformed_verbatim.1
      [("a", "10", "20", "2"), ("b", "x9", "0", "1")] "b" "x9" "0" "1"
      (by simp) (Or.inl (by decide))
  · exact parse_malformed_fatal_wellformed_verbatim.2.1 [("a", "10", "20", "9")]
      (by intro n i o st hm; simp only [List.mem_singleton, Prod.mk.injEq] at hm;
          obtain ⟨rfl, rfl, rfl, rfl⟩ := hm; exact ⟨by decide, by decide⟩)
  · exact parse_malformed_fatal_wellformed_verbatim.2.2 [("a", "10", "20", "9")]
      [("a", ⟨10, 20, "9"⟩)] "a" ⟨10, 20, "9"⟩ (by decide) (by decide)

/-- C7: when a well-formed row set contains one or more rows with the
same tunnel identifier, the parsed snapshot maps that identifier to the
values of the last such row (later rows overwrite earlier rows); this is
not an error. -/
theorem parse_last_row_wins (rows : List RawRow) (s : Snapshot) (k m i o st : String)
    (hp : parse_fortigate_vpn_tunnel rows = some s)
    (hl : lastEntry k rows = some (m, i, o, st)) :
    ∃ iv ov, pyInt i = some iv ∧ pyInt o = some ov ∧
      alookup k s = some ⟨iv, ov, st⟩ :=
  parseGo_lastEntry_wins rows [] s k m i o st hp hl

/-- Witness for C7: two rows named "a"; the snapshot maps "a" to the
second row's values only. -/
theorem parse_last_row_wins_witness :
    ∃ iv ov, pyInt "30" = some iv ∧ pyInt "40" = some ov ∧
      alookup "a" [("a", (⟨30, 40, "1"⟩ : TunnelRecord))] = some ⟨iv, ov, "1"⟩ :=
  parse_last_row_wins [("a", "10", "20", "2"), ("a", "30", "40", "1")]
    [("a", ⟨30, 40, "1"⟩)] "a" "a" "30" "40" "1" (by decide) (by decide)

/-- C8: discovery returns exactly the snapshot's key set (a name is
yielded iff it is a key of the snapshot — no filtering, no additions),
with one monitored unit per tunnel identifier for any parser-produced
snapshot (the key list has no duplicates), and it is a deterministic,
idempotent function of the snapshot. -/
theorem discover_returns_key_set :
    (∀ (sect : Snapshot) (k : String),
      k ∈ discover_fortigate_vpn_tunnel sect ↔ ∃ r, alookup k sect = some r) ∧
    (∀ (rows : List RawRow) (s : Snapshot), parse_fortigate_vpn_tunnel rows = some s →
      (discover_fortigate_vpn_tunnel s).Nodup) ∧
    (∀ s₁ s₂ : Snapshot, s₁ = s₂ →
      discover_fortigate_vpn_tunnel s₁ = discover_fortigate_vpn_tunnel s₂) := by
  refine ⟨?_, ?_, ?_⟩
  · intro sect k
    exact mem_keys_iff_alookup sect k
  · intro rows s hp
    have go : ∀ (rs : List RawRow) (acc s₁ : Snapshot), (acc.map Prod.fst).Nodup →
        parseGo acc rs = some s₁ → (s₁.map Prod.fst).Nodup := by
      intro rs
      induction rs with
      | nil =>
        intro acc s₁ ha hp₁
        simp only [parseGo, Option.some.injEq] at hp₁
        subst hp₁
        exact ha
      | cons hd tl ih =>
        intro acc s₁ ha hp₁
        obtain ⟨n₁, i₁, o₁, st₁⟩ := hd
        simp only [parseGo] at hp₁
        cases h1 : pyInt i₁ with
        | none => rw [h1] at hp₁; exact absurd hp₁ (by simp)
        | some iv =>
          cases h2 : pyInt o₁ with
          | none => rw [h1, h2] at hp₁; exact absurd hp₁ (by simp)
          | some ov =>
            rw [h1, h2] at hp₁
            exact ih _ _ (nodup_keys_dictInsert _ _ _ ha) hp₁
    exact go rows [] s (by simp) hp
  · intro s₁ s₂ h
    rw [h]

/-- Witness for C8 at a concrete snapshot and key. -/
theorem discover_returns_key_set_witness :
    (("a" : String) ∈
        discover_fortigate_vpn_tunnel [("a", (⟨1, 2, "2"⟩ : TunnelRecord))] ↔
      ∃ r, alookup "a" [("a", (⟨1, 2, "2"⟩ : TunnelRecord))] = some r) ∧
    (discover_fortigate_vpn_tunnel [("a", (⟨1, 2, "2"⟩ : TunnelRecord))]).Nodup :=
  ⟨discover_returns_key_set.1 [("a", ⟨1, 2, "2"⟩)] "a",
   discover_returns_key_set.2.1 [("a", "1", "2", "2")] [("a", ⟨1, 2, "2"⟩)] (by decide)⟩

lemma check_absent (item : String) (sect : Snapshot) (h : alookup item sect = none) :
    check_fortigate_vpn_tunnel item sect =
      some [.result .crit ("Tunnel '" ++ item ++ "' is missing")] := by
  simp only [check_fortigate_vpn_tunnel, h]

lemma check_present (item : String) (sect : Snapshot) (data : TunnelRecord)
    (h : alookup item sect = some data) :
    check_fortigate_vpn_tunnel item sect =
      match alookup data.state fortigate_ipsecvpn_tunnel_ent_status_map with
      | none => none
      | some label =>
        some
          [ .result ((alookup label [("up", CmkState.ok), ("down", CmkState.crit)]).getD .unknown)
              ("Status: " ++ label ++ ", In: "
                ++ pyShowOptStr (human_readable_bytes (data.in_bytes : ℚ)) ++ ", Out: "
                ++ pyShowOptStr (human_readable_bytes (data.out_bytes : ℚ))),
            .metric "in_octets" data.in_bytes,
            .metric "out_octets" data.out_bytes ] := by
  simp only [check_fortigate_vpn_tunnel, h]

/-- C2: a tunnel present in the snapshot whose raw status code is neither
"1" nor "2" (not a key of the StatusVocabulary) makes the evaluation fail
with a lookup error — the check produces nothing at all rather than
degrading to an UNKNOWN verdict. -/
theorem check_unknown_status_code_fatal (item : String) (sect : Snapshot)
    (data : TunnelRecord) (h : alookup item sect = some data)
    (h1 : data.state ≠ "1") (h2 : data.state ≠ "2") :
    check_fortigate_vpn_tunnel item sect = none := by
  rw [check_present item sect data h]
  have hmap : alookup data.state fortigate_ipsecvpn_tunnel_ent_status_map = none := by
    simp only [fortigate_ipsecvpn_tunnel_ent_status_map, alookup]
    rw [if_neg (fun hh => h1 hh.symm), if_neg (fun hh => h2 hh.symm)]
  rw [hmap]

/-- Witness for C2: a tunnel with unrecognized status code "3" yields no
result at all. -/
theorem check_unknown_status_code_fatal_witness :
    check_fortigate_vpn_tunnel "t" [("t", (⟨7, 8, "3"⟩ : TunnelRecord))] = none :=
  check_unknown_status_code_fatal "t" [("t", ⟨7, 8, "3"⟩)] ⟨7, 8, "3"⟩
    (by decide) (by decide) (by decide)

/-- C3: an identifier absent from the snapshot yields exactly one
CRITICAL result with summary "Tunnel '<identifier>' is missing" and zero
metrics, and this is the only successful evaluation path without metrics:
every other successful evaluation emits both metrics. -/
theorem check_missing_tunnel :
    (∀ (item : String) (sect : Snapshot), alookup item sect = none →
      check_fortigate_vpn_tunnel item sect =
        some [.result .crit ("Tunnel '" ++ item ++ "' is missing")] ∧
      metricsOf [.result .crit ("Tunnel '" ++ item ++ "' is missing")] = []) ∧
    (∀ (item : String) (sect : Snapshot) (out : List CheckItem),
      check_fortigate_vpn_tunnel item sect = some out → alookup item sect ≠ none →
      ∃ iv ov, CheckItem.metric "in_octets" iv ∈ out ∧
        CheckItem.metric "out_octets" ov ∈ out) := by
  constructor
  · intro item sect h
    exact ⟨check_absent item sect h, rfl⟩
  · intro item sect out hck hne
    cases hs : alookup item sect with
    | none => exact absurd hs hne
    | some data =>
      rw [check_present item sect data hs] at hck
      cases hmap : alookup data.state fortigate_ipsecvpn_tunnel_ent_status_map with
      | none => rw [hmap] at hck; exact absurd hck (by simp)
      | some label =>
        rw [hmap] at hck
        simp only [Option.some.injEq] at hck
        subst hck
        exact ⟨data.in_bytes, data.out_bytes, by simp, by simp⟩

/-- Witness for C3 at concrete inputs: the missing tunnel "X" in an empty
snapshot, and a present tunnel whose output carries both metrics. -/
theorem check_missing_tunnel_witness :
    (check_fortigate_vpn_tunnel "X" [] =
        some [.result .crit ("Tunnel '" ++ "X" ++ "' is missing")] ∧
      metricsOf [.result .crit ("Tunnel '" ++ "X" ++ "' is missing")] = []) ∧
    (∃ iv ov,
      CheckItem.metric "in_octets" iv ∈
        [ CheckItem.result .crit
            ("Status: " ++ "down" ++ ", In: "
              ++ pyShowOptStr (human_readable_bytes ((2048 : Int) : ℚ)) ++ ", Out: "
              ++ pyShowOptStr (human_readable_bytes ((1536 : Int) : ℚ))),
          CheckItem.metric "in_octets" 2048, CheckItem.metric "out_octets" 1536 ] ∧
      CheckItem.metric "out_octets" ov ∈
        [ CheckItem.result .crit
            ("Status: " ++ "down" ++ ", In: "
              ++ pyShowOptStr (human_readable_bytes ((2048 : Int) : ℚ)) ++ ", Out: "
              ++ pyShowOptStr (human_readable_bytes ((1536 : Int) : ℚ))),
          CheckItem.metric "in_octets" 2048, CheckItem.metric "out_octets" 1536 ]) :=
  ⟨check_missing_tunnel.1 "X" [] rfl,
   check_missing_tunnel.2 "t" [("t", ⟨2048, 1536, "1"⟩)] _ rfl (by simp [alookup])⟩

lemma hrb_int_2048 : human_readable_bytes ((2048 : Int) : ℚ) = some "2.00 KB" := by
  norm_num [human_readable_bytes, hrbGo, formatTwoDecimals, roundHalfEven]
  decide

lemma hrb_int_1536 : human_readable_bytes ((1536 : Int) : ℚ) = some "1.50 KB" := by
  norm_num [human_readable_bytes, hrbGo, formatTwoDecimals, roundHalfEven]
  decide

/-- C4: for a present tunnel the verdict is a pure function of the
resolved label — raw status "2" resolves to "up" and verdict OK, raw
status "1" resolves to "down" and verdict CRITICAL — and the summary is
rendered as `"Status: {label}, In: {humanBytes(in)}, Out:
{humanBytes(out)}"`; concretely, status "1" with inbound 2048 and
outbound 1536 yields CRITICAL with summary
"Status: down, In: 2.00 KB, Out: 1.50 KB". -/
theorem check_verdict_from_label :
    (∀ (item : String) (sect : Snapshot) (data : TunnelRecord),
      alookup item sect = some data → data.state = "2" →
      check_fortigate_vpn_tunnel item sect =
        some
          [ .result .ok
              ("Status: " ++ "up" ++ ", In: "
                ++ pyShowOptStr (human_readable_bytes (data.in_bytes : ℚ)) ++ ", Out: "
                ++ pyShowOptStr (human_readable_bytes (data.out_bytes : ℚ))),
            .metric "in_octets" data.in_bytes,
            .metric "out_octets" data.out_bytes ]) ∧
    (∀ (item : String) (sect : Snapshot) (data : TunnelRecord),
      alookup item sect = some data → data.state = "1" →
      check_fortigate_vpn_tunnel item sect =
        some
          [ .result .crit
              ("Status: " ++ "down" ++ ", In: "
                ++ pyShowOptStr (human_readable_bytes (data.in_bytes : ℚ)) ++ ", Out: "
                ++ pyShowOptStr (human_readable_bytes (data.out_bytes : ℚ))),
            .metric "in_octets" data.in_bytes,
            .metric "out_octets" data.out_bytes ]) ∧
    check_fortigate_vpn_tunnel "t" [("t", ⟨2048, 1536, "1"⟩)] =
      some
        [ .result .crit "Status: down, In: 2.00 KB, Out: 1.50 KB",
          .metric "in_octets" 2048,
          .metric "out_octets" 1536 ] := by
  refine ⟨?_, ?_, ?_⟩
  · intro item sect data h hstate
    rw [check_present item sect data h, hstate]
    rfl
  · intro item sect data h hstate
    rw [check_present item sect data h, hstate]
    rfl
  · have e : check_fortigate_vpn_tunnel "t" [("t", ⟨2048, 1536, "1"⟩)] =
        some
          [ .result .crit
              ("Status: " ++ "down" ++ ", In: "
                ++ pyShowOptStr (human_readable_bytes ((2048 : Int) : ℚ)) ++ ", Out: "
                ++ pyShowOptStr (human_readable_bytes ((1536 : Int) : ℚ))),
            .metric "in_octets" 2048,
            .metric "out_octets" 1536 ] := rfl
    rw [e, hrb_int_2048, hrb_int_1536]
    decide

/-- Witness for C4 applying the "1" → CRITICAL branch at a concrete
snapshot. -/
theorem check_verdict_from_label_witness :
    check_fortigate_vpn_tunnel "v" [("v", (⟨0, 0, "1"⟩ : TunnelRecord))] =
      some
        [ .result .crit
            ("Status: " ++ "down" ++ ", In: "
              ++ pyShowOptStr (human_readable_bytes (((0 : Int)) : ℚ)) ++ ", Out: "
              ++ pyShowOptStr (human_readable_bytes (((0 : Int)) : ℚ))),
          .metric "in_octets" 0,
          .metric "out_octets" 0 ] :=
  check_verdict_from_label.2.1 "v" [("v", ⟨0, 0, "1"⟩)] ⟨0, 0, "1"⟩ (by decide) rfl

/-- C5: whenever the evaluation of a present tunnel succeeds, the emitted
metrics are exactly the two named `in_octets` and `out_octets` and carry
the raw integer counters from the snapshot, untouched by the
human-readable formatting. -/
theorem check_metrics_equal_raw_counters (item : String) (sect : Snapshot)
    (data : TunnelRecord) (out : List CheckItem)
    (h : alookup item sect = some data)
    (hck : check_fortigate_vpn_tunnel item sect = some out) :
    metricsOf out = [("in_octets", data.in_bytes), ("out_octets", data.out_bytes)] := by
  rw [check_present item sect data h] at hck
  cases hmap : alookup data.state fortigate_ipsecvpn_tunnel_ent_status_map with
  | none => rw [hmap] at hck; exact absurd hck (by simp)
  | some label =>
    rw [hmap] at hck
    simp only [Option.some.injEq] at hck
    subst hck
    rfl

/-- Witness for C5 at a concrete snapshot. -/
theorem check_metrics_equal_raw_counters_witness :
    metricsOf
        [ .result .crit
            ("Status: " ++ "down" ++ ", In: "
              ++ pyShowOptStr (human_readable_bytes ((2048 : Int) : ℚ)) ++ ", Out: "
              ++ pyShowOptStr (human_readable_bytes ((1536 : Int) : ℚ))),
          .metric "in_octets" 2048,
          .metric "out_octets" 1536 ] =
      [("in_octets", 2048), ("out_octets", 1536)] :=
  check_metrics_equal_raw_counters "t" [("t", ⟨2048, 1536, "1"⟩)] ⟨2048, 1536, "1"⟩ _
    (by decide) rfl

/-- C10: evaluation output is all-or-nothing per tunnel.  A successful
evaluation is either the missing-tunnel verdict (one result, no metrics)
or exactly one result followed by the two metrics; and a failing status
lookup produces no output at all (no verdict without metrics, no metrics
without verdict). -/
theorem check_all_or_nothing :
    (∀ (item : String) (sect : Snapshot) (out : List CheckItem),
      check_fortigate_vpn_tunnel item sect = some out →
      (alookup item sect = none ∧
        out = [.result .crit ("Tunnel '" ++ item ++ "' is missing")]) ∨
      ∃ st sum iv ov,
        out = [.result st sum, .metric "in_octets" iv, .metric "out_octets" ov]) ∧
    (∀ (item : String) (sect : Snapshot) (data : TunnelRecord),
      alookup item sect = some data →
      alookup data.state fortigate_ipsecvpn_tunnel_ent_status_map = none →
      check_fortigate_vpn_tunnel item sect = none) := by
  constructor
  · intro item sect out hck
    cases hs : alookup item sect with
    | none =>
      rw [check_absent item sect hs] at hck
      simp only [Option.some.injEq] at hck
      exact Or.inl ⟨rfl, hck.symm⟩
    | some data =>
      rw [check_present item sect data hs] at hck
      cases hmap : alookup data.state fortigate_ipsecvpn_tunnel_ent_status_map with
      | none => rw [hmap] at hck; exact absurd hck (by simp)
      | some label =>
        rw [hmap] at hck
        simp only [Option.some.injEq] at hck
        exact Or.inr ⟨_, _, data.in_bytes, data.out_bytes, hck.symm⟩
  · intro item sect data hs hmap
    rw [check_present item sect data hs, hmap]

/-- Witness for C10: the shape of a successful output, and the empty
output of a failed status lookup, at concrete inputs. -/
theorem check_all_or_nothing_witness :
    ((alookup "X" ([] : Snapshot) = none ∧
        [CheckItem.result .crit ("Tunnel '" ++ "X" ++ "' is missing")] =
          [.result .crit ("Tunnel '" ++ "X" ++ "' is missing")]) ∨
      ∃ st sum iv ov,
        [CheckItem.result .crit ("Tunnel '" ++ "X" ++ "' is missing")] =
          [.result st sum, .metric "in_octets" iv, .metric "out_octets" ov]) ∧
    check_fortigate_vpn_tunnel "u" [("u", (⟨1, 2, "9"⟩ : TunnelRecord))] = none :=
  ⟨check_all_or_nothing.1 "X" [] _ rfl,
   check_all_or_nothing.2 "u" [("u", ⟨1, 2, "9"⟩)] ⟨1, 2, "9"⟩ (by decide) (by decide)⟩
